import Mathlib

/-!
Shallow embedding of harumaki4649/brightdata-proxy-detection-test
(src/proxycheck.py and src/logger.py), with theorems checking the
repository's specification against the code.

The network is modelled as an oracle: for each attempt index it yields
either a decoded JSON payload, an HTTP error with status code and
reason, or some other exception.  Wall-clock fields (timestamp,
checked_at, generated_at) are omitted from the modelled records, and
sleeps are recorded as the list of durations passed to time.sleep.
-/

/-- Outcome of one proxycheck.io network attempt as observed inside
check_ip_proxycheck (src/proxycheck.py): a successfully decoded JSON
payload, an urllib HTTPError carrying a status code and a reason
string, or any other exception with its message. -/
inductive AttemptResult where
| httpOk (payload : String)
| httpError (code : Nat) (reason : String)
| otherError (msg : String)
deriving DecidableEq, Repr

/-- The result dict built by check_ip_proxycheck: success flag, the ip,
and the mutually exclusive data / error fields.  The wall-clock fields
timestamp and checked_at of the Python dict are not modelled. -/
structure CheckOutcome where
  success : Bool
  ip : String
  data : Option String
  error : Option String
deriving DecidableEq, Repr

/-- The retry loop of check_ip_proxycheck (src/proxycheck.py lines
53-100).  The Python loop is `for attempt in range(max_retries)`; here
the list of attempt indices is passed explicitly (the caller supplies
List.range maxRetries) and the network call of attempt i is
`oracle i`.  The first component collects the time.sleep durations in
order; the second component is the returned dict, `none` modelling the
trailing `return None` reached when the loop runs out of attempts. -/
def checkLoop (ip : String) (oracle : Nat → AttemptResult) (maxRetries retryDelay : Nat) :
    List Nat → List Nat × Option CheckOutcome
| [] => ([], none)
| attempt :: rest =>
  match oracle attempt with
  | AttemptResult.httpOk payload =>
      ([], some { success := true, ip := ip, data := some payload, error := none })
  | AttemptResult.httpError code reason =>
      if code = 429 ∧ attempt < maxRetries - 1 then
        let r := checkLoop ip oracle maxRetries retryDelay rest
        (retryDelay * 2 ^ attempt :: r.1, r.2)
      else if attempt < maxRetries - 1 then
        let r := checkLoop ip oracle maxRetries retryDelay rest
        (retryDelay :: r.1, r.2)
      else
        ([], some { success := false, ip := ip, data := none,
                    error := some ("HTTP " ++ toString code ++ ": " ++ reason) })
  | AttemptResult.otherError msg =>
      if attempt < maxRetries - 1 then
        let r := checkLoop ip oracle maxRetries retryDelay rest
        (retryDelay :: r.1, r.2)
      else
        ([], some { success := false, ip := ip, data := none, error := some msg })

/-- check_ip_proxycheck (src/proxycheck.py lines 33-100): runs the
retry loop over attempt indices 0 .. max_retries - 1.  Returns the
recorded sleep durations and the returned dict (none for the trailing
`return None`). -/
def check_ip_proxycheck (ip : String) (oracle : Nat → AttemptResult)
    (maxRetries retryDelay : Nat) : List Nat × Option CheckOutcome :=
  checkLoop ip oracle maxRetries retryDelay (List.range maxRetries)

example :
    check_ip_proxycheck "1.2.3.4" (fun _ => AttemptResult.httpOk "d") 3 2 =
      ([], some { success := true, ip := "1.2.3.4", data := some "d", error := none }) := by
  decide

example :
    check_ip_proxycheck "1.2.3.4"
      (fun n => if n = 2 then AttemptResult.httpOk "d" else AttemptResult.httpError 429 "Too Many") 3 2 =
      ([2, 4], some { success := true, ip := "1.2.3.4", data := some "d", error := none }) := by
  decide

example :
    check_ip_proxycheck "1.2.3.4" (fun _ => AttemptResult.httpError 429 "Too Many") 3 2 =
      ([2, 4], some { success := false, ip := "1.2.3.4", data := none,
                      error := some "HTTP 429: Too Many" }) := by
  decide

/-- ASCII whitespace, the characters Python str.strip() removes. -/
def isSpaceChar (c : Char) : Bool :=
  c == ' ' || c == '\t' || c == '\n' || c == '\r' || c == '\x0b' || c == '\x0c'

/-- Drop characters satisfying p from both ends of a list. -/
def stripWhile (p : Char → Bool) (l : List Char) : List Char :=
  ((l.dropWhile p).reverse.dropWhile p).reverse

/-- Python str.strip() with no argument: remove surrounding whitespace. -/
def pyStrip (s : String) : String := String.mk (stripWhile isSpaceChar s.data)

/-- Python str.strip('"'): remove surrounding double quotes. -/
def stripQuotes (s : String) : String := String.mk (stripWhile (fun a => a == '"') s.data)

/-- Python str.split(sep) for a one-character separator, on character
lists: splitting the empty string yields one empty field. -/
def splitCharList (c : Char) : List Char → List (List Char)
| [] => [[]]
| a :: rest =>
  let r := splitCharList c rest
  if a == c then [] :: r
  else
    match r with
    | [] => [[a]]
    | g :: gs => (a :: g) :: gs

/-- Python str.split(sep) for a one-character separator. -/
def pySplit (c : Char) (s : String) : List String :=
  (splitCharList c s.data).map String.mk

/-- A nonempty all-digit character list read as a decimal number. -/
def digitsToNat (l : List Char) : Option Nat :=
  if !l.isEmpty && l.all Char.isDigit then
    some (l.foldl (fun n c => n * 10 + (c.toNat - '0'.toNat)) 0)
  else none

/-- Python's int() applied to a string, as used in the segment checks:
surrounding whitespace is stripped, an optional sign is allowed, and
the remainder must be a nonempty digit string. -/
def pyInt (s : String) : Option Int :=
  match stripWhile isSpaceChar s.data with
  | '-' :: ds => (digitsToNat ds).map (fun n => -(n : Int))
  | '+' :: ds => (digitsToNat ds).map (fun n => (n : Int))
  | ds => (digitsToNat ds).map (fun n => (n : Int))

/-- The cleanup applied to each Ip field in load_ips_from_csv
(src/proxycheck.py line 122): `row.get('Ip', '').strip().strip('"')`. -/
def cleanField (raw : String) : String := stripQuotes (pyStrip raw)

/-- The per-segment test shared by both validators: the part parses
with int() to a value in 0..255 (int() raising rejects it). -/
def segOk (p : String) : Bool :=
  match pyInt p with
  | some n => decide (0 ≤ n ∧ n ≤ 255)
  | none => false

/-- The validity test of load_ips_from_csv (src/proxycheck.py lines
124-132): the cleaned value is nonempty, contains a dot, splits on '.'
into exactly 4 parts, and every part parses with int() to a value in
0..255 (a ValueError rejects the row). -/
def acceptIp (ip : String) : Bool :=
  !ip.isEmpty && ip.data.any (fun a => a == '.') &&
    ((pySplit '.' ip).length == 4 && (pySplit '.' ip).all segOk)

/-- Python's string comparison on character lists: lexicographic by
code point. -/
def listLe : List Char → List Char → Bool
| [], _ => true
| _ :: _, [] => false
| a :: as, b :: bs =>
  if a.toNat = b.toNat then listLe as bs
  else decide (a.toNat < b.toNat)

/-- Python's string comparison (the order used by sorted()):
lexicographic by code point. -/
def strLe (s t : String) : Bool := listLe s.data t.data

/-- The extraction core of load_ips_from_csv (src/proxycheck.py lines
107-136), modelled over the already-extracted Ip column values of the
CSV rows: each field is stripped and unquoted, validated, accumulated
into a set (here: dedup), and the set is returned sorted. -/
def load_ips_rows (fields : List String) : List String :=
  List.insertionSort (fun a b => strLe a b = true) (((fields.map cleanField).filter acceptIp).dedup)

/-- load_ips_from_csv (src/proxycheck.py lines 103-142).  `none` models
an unreadable input file: the `except` clause returns the empty list.
`some fields` models a readable file whose rows carry the given Ip
column values. -/
def load_ips_from_csv (input : Option (List String)) : List String :=
  match input with
  | none => []
  | some fields => load_ips_rows fields

example : load_ips_from_csv (some ["8.8.8.8", " \"1.2.3.4\" ", "8.8.8.8", "oops", "1.2.3.256"]) =
    ["1.2.3.4", "8.8.8.8"] := by decide

/-- Result of the network request made by get_ip in src/logger.py:
either a decoded response body or an exception. -/
inductive NetResponse where
| ok (body : String)
| exc (msg : String)
deriving DecidableEq, Repr

/-- The record returned by get_ip in src/logger.py. -/
structure IpRecord where
  success : Bool
  ip : String
  id : Nat
  note : Option String
deriving DecidableEq, Repr

/-- The per-line validity test of get_ip (src/logger.py lines 54-57):
the stripped line splits on '.' into exactly 4 parts, each parsing
with int() to a value in 0..255 (the bare except rejects the line). -/
def validQuad (line : String) : Bool :=
  (pySplit '.' line).length == 4 && (pySplit '.' line).all segOk

/-- get_ip (src/logger.py lines 34-64).  On a response body, the body
is stripped, split into lines, each line stripped, and the first valid
dotted quad returned; with no valid line, the first line is returned.
Every exception is swallowed and reported as success with ip
"logged". -/
def get_ip (resp : NetResponse) (check_id : Nat) : IpRecord :=
  match resp with
  | NetResponse.exc _ =>
      { success := true, ip := "logged", id := check_id,
        note := some "Response failed but logged" }
  | NetResponse.ok body =>
      let lines := (pySplit '\n' (pyStrip body)).map pyStrip
      match lines.find? validQuad with
      | some line => { success := true, ip := line, id := check_id, note := none }
      | none => { success := true, ip := lines.headD "", id := check_id, note := none }

example : get_ip (NetResponse.ok "  93.184.216.34\nextra ") 5 =
    { success := true, ip := "93.184.216.34", id := 5, note := none } := by decide

example : get_ip (NetResponse.ok "not an ip\nstill not") 5 =
    { success := true, ip := "not an ip", id := 5, note := none } := by decide

example : get_ip (NetResponse.exc "boom") 9 =
    { success := true, ip := "logged", id := 9, note := some "Response failed but logged" } := by
  decide

/-- The shared mutable state of main (src/proxycheck.py lines 27-30):
the results dict (modelled as an association list in insertion order)
and the two counters. -/
structure RunState where
  results : List (String × CheckOutcome)
  processed_count : Nat
  error_count : Nat
deriving DecidableEq, Repr

/-- Python dict assignment `results[ip] = result`: overwrite in place
when the key is present, append otherwise. -/
def dictInsert (m : List (String × CheckOutcome)) (k : String) (v : CheckOutcome) :
    List (String × CheckOutcome) :=
  if m.any (fun p => p.1 == k) then m.map (fun p => if p.1 == k then (k, v) else p)
  else m ++ [(k, v)]

/-- The state update under results_lock in main (src/proxycheck.py
lines 222-227): store the outcome and bump the matching counter. -/
def updState (st : RunState) (ip : String) (r : CheckOutcome) : RunState :=
  { results := dictInsert st.results ip r
    processed_count := st.processed_count + (if r.success then 1 else 0)
    error_count := st.error_count + (if r.success then 0 else 1) }

/-- A progress display action of main: either the tqdm postfix-and-step
pair or a plain printed status line (src/proxycheck.py lines 229-243). -/
inductive DisplayEvent where
| barInfo (ok ng : Nat) (current : String)
| barStep
| plainLine (okStatus : Bool) (ip : String) (ok ng : Nat)
deriving DecidableEq, Repr

/-- One iteration of the result-collection loop of main
(src/proxycheck.py lines 217-243), for a worker whose future completed
normally: the `if result:` guard skips a None result entirely;
otherwise the state is updated under the lock and the completion is
displayed through tqdm (use_tqdm) or a printed line. -/
def stepD (useTqdm : Bool) (w : String → Option CheckOutcome)
    (acc : RunState × List DisplayEvent) (ip : String) : RunState × List DisplayEvent :=
  match w ip with
  | none => acc
  | some r =>
    let st := updState acc.1 ip r
    if useTqdm then
      (st, acc.2 ++ [DisplayEvent.barInfo st.processed_count st.error_count (ip.take 15),
                     DisplayEvent.barStep])
    else
      (st, acc.2 ++ [DisplayEvent.plainLine r.success ip st.processed_count st.error_count])

/-- The result-collection loop of main over the order in which
as_completed yields the futures, starting from the module-level empty
dict and zero counters. -/
def collectD (useTqdm : Bool) (w : String → Option CheckOutcome) (order : List String) :
    RunState × List DisplayEvent :=
  order.foldl (stepD useTqdm w) ({ results := [], processed_count := 0, error_count := 0 }, [])

/-- The metadata block of the output (src/proxycheck.py lines 264-271);
generated_at is a wall-clock value and is not modelled. -/
structure RunMetadata where
  source_file : String
  total_ips : Nat
  successful : Nat
  failed : Nat
  api_key_used : Bool
deriving DecidableEq, Repr

/-- The output structure handed to save_json (src/proxycheck.py lines
263-273). -/
structure OutputData where
  metadata : RunMetadata
  results : List (String × CheckOutcome)
deriving DecidableEq, Repr

/-- main (src/proxycheck.py lines 154-286): load the targets, exit
with code 1 when none were found, otherwise run every submitted worker
(each worker is check_ip_proxycheck with default max_retries=3 and
retry_delay=2 against the per-ip network oracle), collect completions
in the order given by as_completed, build the output structure, write
it, and finish with exit code 0.  The returned pair is the process
exit code and the output handed to save_json (none when nothing is
written).  The worker main submits for one target is
check_ip_proxycheck with its default max_retries=3 and retry_delay=2
(src/proxycheck.py line 202). -/
def mainWorker (oracle : String → Nat → AttemptResult) (ip : String) : Option CheckOutcome :=
  (check_ip_proxycheck ip (oracle ip) 3 2).2

/-- main (src/proxycheck.py lines 154-286): load the targets, exit
with code 1 when none were found, otherwise run every submitted
worker, collect completions in the order in which as_completed yields
them, build the output structure, write it, and finish with exit code
0.  The returned pair is the process exit code and the output handed
to save_json (none when nothing is written). -/
def main_run (input : Option (List String)) (sourceFile : String) (apiKeyUsed : Bool)
    (oracle : String → Nat → AttemptResult) (order : List String) (useTqdm : Bool) :
    Nat × Option OutputData :=
  if (load_ips_from_csv input).isEmpty then (1, none)
  else
    (0, some { metadata := { source_file := sourceFile,
                             total_ips := (load_ips_from_csv input).length,
                             successful := (collectD useTqdm (mainWorker oracle) order).1.processed_count,
                             failed := (collectD useTqdm (mainWorker oracle) order).1.error_count,
                             api_key_used := apiKeyUsed },
               results := (collectD useTqdm (mainWorker oracle) order).1.results })

example :
    main_run (some ["8.8.8.8", "1.2.3.4"]) "in.csv" false
      (fun _ _ => AttemptResult.httpOk "d") ["8.8.8.8", "1.2.3.4"] true =
      (0, some { metadata := { source_file := "in.csv", total_ips := 2, successful := 2,
                               failed := 0, api_key_used := false },
                 results := [("8.8.8.8", { success := true, ip := "8.8.8.8", data := some "d", error := none }),
                             ("1.2.3.4", { success := true, ip := "1.2.3.4", data := some "d", error := none })] }) := by
  decide

example :
    main_run (some ["oops"]) "in.csv" false (fun _ _ => AttemptResult.httpOk "d") [] true =
      (1, none) := by decide

/-- The collection step stripped of its display effects: the state
update performed for one completed future. -/
def pureStep (w : String → Option CheckOutcome) (st : RunState) (ip : String) : RunState :=
  match w ip with
  | none => st
  | some r => updState st ip r

/-- The state component of the collection loop is the same fold with
or without display, for either display implementation. -/
theorem foldD_fst (u : Bool) (w : String → Option CheckOutcome) :
    ∀ (l : List String) (st : RunState) (evs : List DisplayEvent),
      (List.foldl (stepD u w) (st, evs) l).1 = List.foldl (pureStep w) st l := by
  intro l
  induction l with
  | nil => intro st evs; rfl
  | cons ip rest ih =>
    intro st evs
    cases h : w ip with
    | none => simp [List.foldl, stepD, h, pureStep, ih]
    | some r => cases u <;> simp [List.foldl, stepD, h, pureStep, ih]

/-- Inserting a fresh key into the dict appends the pair. -/
theorem dictInsert_fresh (m : List (String × CheckOutcome)) (k : String) (v : CheckOutcome)
    (h : k ∉ m.map Prod.fst) : dictInsert m k v = m ++ [(k, v)] := by
  have hany : m.any (fun p => p.1 == k) = false := by
    rw [List.any_eq_false]
    intro p hp hk
    exact h (eq_of_beq hk ▸ List.mem_map_of_mem Prod.fst hp)
  simp [dictInsert, hany]

/-- Folding the collection step over distinct fresh targets whose
workers all return a dict appends exactly one entry per target, in
completion order, and adds one to the counter total per target. -/
theorem foldPure_spec (w : String → Option CheckOutcome) (hw : ∀ ip, (w ip).isSome = true) :
    ∀ (l : List String) (st : RunState), l.Nodup →
      (∀ ip ∈ l, ip ∉ st.results.map Prod.fst) →
      (List.foldl (pureStep w) st l).results.map Prod.fst = st.results.map Prod.fst ++ l ∧
      (List.foldl (pureStep w) st l).processed_count
          + (List.foldl (pureStep w) st l).error_count
        = st.processed_count + st.error_count + l.length := by
  intro l
  induction l with
  | nil => intro st _ _; simp
  | cons ip rest ih =>
    intro st hnd hfresh
    obtain ⟨r, hr⟩ := Option.isSome_iff_exists.mp (hw ip)
    have hins : dictInsert st.results ip r = st.results ++ [(ip, r)] :=
      dictInsert_fresh _ _ _ (hfresh ip (List.mem_cons_self ip rest))
    have hstep : List.foldl (pureStep w) st (ip :: rest)
        = List.foldl (pureStep w) (updState st ip r) rest := by
      simp [List.foldl, pureStep, hr]
    have hmap : (updState st ip r).results.map Prod.fst = st.results.map Prod.fst ++ [ip] := by
      simp [updState, hins]
    have hcnt : (updState st ip r).processed_count + (updState st ip r).error_count
        = st.processed_count + st.error_count + 1 := by
      cases hs : r.success <;> simp [updState, hs] <;> omega
    have hih := ih (updState st ip r) (List.nodup_cons.mp hnd).2 (by
      intro j hj
      rw [hmap]
      intro hmem
      rcases List.mem_append.mp hmem with hold | hnew
      · exact hfresh j (List.mem_cons_of_mem ip hj) hold
      · have : j = ip := by simpa using hnew
        exact (List.nodup_cons.mp hnd).1 (this ▸ hj))
    constructor
    · rw [hstep, hih.1, hmap]
      simp
    · rw [hstep, hih.2, hcnt]
      simp [List.length_cons]
      omega

/-- The run-state reached by the collection loop over a duplicate-free
completion order with total workers: keys in completion order, one per
target, counters summing to the number of targets. -/
theorem collectD_spec (u : Bool) (w : String → Option CheckOutcome)
    (hw : ∀ ip, (w ip).isSome = true) (order : List String) (hnd : order.Nodup) :
    (collectD u w order).1.results.map Prod.fst = order ∧
    (collectD u w order).1.processed_count + (collectD u w order).1.error_count
      = order.length := by
  rw [collectD, foldD_fst]
  have h := foldPure_spec w hw order
    { results := [], processed_count := 0, error_count := 0 } hnd (by simp)
  simpa using h

/-- A successful network call terminates the loop with the success dict. -/
theorem checkLoop_ok (ip : String) (oracle : Nat → AttemptResult) (K B a : Nat)
    (rest : List Nat) (p : String) (h : oracle a = AttemptResult.httpOk p) :
    checkLoop ip oracle K B (a :: rest) =
      ([], some { success := true, ip := ip, data := some p, error := none }) := by
  simp only [checkLoop, h]

/-- An HTTP error with attempts remaining sleeps and retries: the
exponential backoff on 429, the fixed delay otherwise. -/
theorem checkLoop_retry_http (ip : String) (oracle : Nat → AttemptResult) (K B a : Nat)
    (rest : List Nat) (c : Nat) (r : String)
    (haK : a < K - 1) (h : oracle a = AttemptResult.httpError c r) :
    checkLoop ip oracle K B (a :: rest) =
      ((if c = 429 then B * 2 ^ a else B) :: (checkLoop ip oracle K B rest).1,
       (checkLoop ip oracle K B rest).2) := by
  by_cases hc : c = 429 <;> simp [checkLoop, h, hc, haK]

/-- A non-HTTP exception with attempts remaining sleeps the fixed
delay and retries. -/
theorem checkLoop_retry_other (ip : String) (oracle : Nat → AttemptResult) (K B a : Nat)
    (rest : List Nat) (m : String)
    (haK : a < K - 1) (h : oracle a = AttemptResult.otherError m) :
    checkLoop ip oracle K B (a :: rest) =
      (B :: (checkLoop ip oracle K B rest).1, (checkLoop ip oracle K B rest).2) := by
  simp [checkLoop, h, haK]

/-- An HTTP error on the last attempt terminates with the failure dict. -/
theorem checkLoop_last_http (ip : String) (oracle : Nat → AttemptResult) (K B a : Nat)
    (rest : List Nat) (c : Nat) (r : String)
    (haK : ¬ a < K - 1) (h : oracle a = AttemptResult.httpError c r) :
    checkLoop ip oracle K B (a :: rest) =
      ([], some { success := false, ip := ip, data := none,
                  error := some ("HTTP " ++ toString c ++ ": " ++ r) }) := by
  simp [checkLoop, h, haK]

/-- A non-HTTP exception on the last attempt terminates with the
failure dict carrying the exception text. -/
theorem checkLoop_last_other (ip : String) (oracle : Nat → AttemptResult) (K B a : Nat)
    (rest : List Nat) (m : String)
    (haK : ¬ a < K - 1) (h : oracle a = AttemptResult.otherError m) :
    checkLoop ip oracle K B (a :: rest) =
      ([], some { success := false, ip := ip, data := none, error := some m }) := by
  simp [checkLoop, h, haK]

/-- The loop returns a dict as soon as its attempt list contains an
index at or beyond max_retries - 1. -/
theorem checkLoop_isSome (ip : String) (oracle : Nat → AttemptResult) (K B : Nat) :
    ∀ l : List Nat, (∃ a ∈ l, ¬ a < K - 1) →
      ((checkLoop ip oracle K B l).2).isSome = true := by
  intro l
  induction l with
  | nil => rintro ⟨a, ha, _⟩; exact absurd ha (List.not_mem_nil a)
  | cons a rest ih =>
    rintro ⟨b, hb, hbK⟩
    by_cases haK : a < K - 1
    · have hbrest : b ∈ rest := by
        rcases List.mem_cons.mp hb with h | h
        · exact absurd (h ▸ haK) hbK
        · exact h
      cases h : oracle a with
      | httpOk p => rw [checkLoop_ok ip oracle K B a rest p h]; rfl
      | httpError c r =>
        rw [checkLoop_retry_http ip oracle K B a rest c r haK h]
        exact ih ⟨b, hbrest, hbK⟩
      | otherError m =>
        rw [checkLoop_retry_other ip oracle K B a rest m haK h]
        exact ih ⟨b, hbrest, hbK⟩
    · cases h : oracle a with
      | httpOk p => rw [checkLoop_ok ip oracle K B a rest p h]; rfl
      | httpError c r => rw [checkLoop_last_http ip oracle K B a rest c r haK h]; rfl
      | otherError m => rw [checkLoop_last_other ip oracle K B a rest m haK h]; rfl

/-- check_ip_proxycheck returns a dict whenever max_retries is at
least 1. -/
theorem check_isSome (ip : String) (oracle : Nat → AttemptResult) (K B : Nat)
    (hK : 1 ≤ K) : ((check_ip_proxycheck ip oracle K B).2).isSome = true := by
  refine checkLoop_isSome ip oracle K B (List.range K) ⟨K - 1, ?_, ?_⟩
  · exact List.mem_range.mpr (by omega)
  · omega

/-- Every dict the loop returns has data present exactly on success
and error present exactly on failure. -/
theorem checkLoop_exclusive (ip : String) (oracle : Nat → AttemptResult) (K B : Nat) :
    ∀ (l : List Nat) (o : CheckOutcome), (checkLoop ip oracle K B l).2 = some o →
      (o.data.isSome = true ↔ o.success = true) ∧
      (o.error.isSome = true ↔ o.success = false) := by
  intro l
  induction l with
  | nil => intro o h; exact absurd h (by simp [checkLoop])
  | cons a rest ih =>
    intro o h
    by_cases haK : a < K - 1
    · cases ho : oracle a with
      | httpOk p =>
        rw [checkLoop_ok ip oracle K B a rest p ho] at h
        cases Option.some.inj h; simp
      | httpError c r =>
        rw [checkLoop_retry_http ip oracle K B a rest c r haK ho] at h
        exact ih o h
      | otherError m =>
        rw [checkLoop_retry_other ip oracle K B a rest m haK ho] at h
        exact ih o h
    · cases ho : oracle a with
      | httpOk p =>
        rw [checkLoop_ok ip oracle K B a rest p ho] at h
        cases Option.some.inj h; simp
      | httpError c r =>
        rw [checkLoop_last_http ip oracle K B a rest c r haK ho] at h
        cases Option.some.inj h; simp
      | otherError m =>
        rw [checkLoop_last_other ip oracle K B a rest m haK ho] at h
        cases Option.some.inj h; simp

/-- When every attempt is rate-limited, the loop over the attempt
indices j, j+1, ..., K-1 ends in the 429 failure dict. -/
theorem checkLoop_all429 (ip : String) (oracle : Nat → AttemptResult) (K B : Nat)
    (r : String) (h429 : ∀ a, a < K → oracle a = AttemptResult.httpError 429 r) :
    ∀ n j, j + n = K → 1 ≤ n →
      (checkLoop ip oracle K B (List.range' j n)).2 =
        some { success := false, ip := ip, data := none,
               error := some ("HTTP " ++ toString 429 ++ ": " ++ r) } := by
  intro n
  induction n with
  | zero => intro j _ h1; omega
  | succ m ih =>
    intro j hj _
    rcases Nat.eq_zero_or_pos m with hm | hm
    · subst hm
      have hjK : ¬ j < K - 1 := by omega
      have hoj := h429 j (by omega)
      rw [show List.range' j 1 = [j] from rfl,
          checkLoop_last_http ip oracle K B j [] 429 r hjK hoj]
    · have hjK : j < K - 1 := by omega
      have hoj := h429 j (by omega)
      rw [List.range'_succ,
          checkLoop_retry_http ip oracle K B j (List.range' (j + 1) m) 429 r hjK hoj]
      exact ih (j + 1) (by omega) hm

/-- The code-point lexicographic comparison is total. -/
theorem listLe_total : ∀ a b : List Char, listLe a b = true ∨ listLe b a = true := by
  intro a
  induction a with
  | nil => intro b; left; rfl
  | cons x xs ih =>
    intro b
    cases b with
    | nil => right; rfl
    | cons y ys =>
      by_cases hxy : x.toNat = y.toNat
      · rcases ih ys with h | h
        · left; simp [listLe, hxy, h]
        · right; simp [listLe, hxy.symm, h]
      · by_cases hlt : x.toNat < y.toNat
        · left; simp [listLe, hxy, hlt]
        · right
          have hyx : ¬ y.toNat = x.toNat := by omega
          have hgt : y.toNat < x.toNat := by omega
          simp [listLe, hyx, hgt]

/-- The code-point lexicographic comparison is transitive. -/
theorem listLe_trans : ∀ a b c : List Char,
    listLe a b = true → listLe b c = true → listLe a c = true := by
  intro a
  induction a with
  | nil => intro b c _ _; rfl
  | cons x xs ih =>
    intro b c hab hbc
    cases b with
    | nil => simp [listLe] at hab
    | cons y ys =>
      cases c with
      | nil => simp [listLe] at hbc
      | cons z zs =>
        simp only [listLe] at hab hbc ⊢
        by_cases hxy : x.toNat = y.toNat <;> by_cases hyz : y.toNat = z.toNat
        · rw [if_pos hxy] at hab
          rw [if_pos hyz] at hbc
          rw [if_pos (by omega : x.toNat = z.toNat)]
          exact ih ys zs hab hbc
        · rw [if_neg hyz] at hbc
          have h2 : y.toNat < z.toNat := of_decide_eq_true hbc
          rw [if_neg (by omega : ¬ x.toNat = z.toNat)]
          exact decide_eq_true (by omega)
        · rw [if_neg hxy] at hab
          have h1 : x.toNat < y.toNat := of_decide_eq_true hab
          rw [if_neg (by omega : ¬ x.toNat = z.toNat)]
          exact decide_eq_true (by omega)
        · rw [if_neg hxy] at hab
          rw [if_neg hyz] at hbc
          have h1 : x.toNat < y.toNat := of_decide_eq_true hab
          have h2 : y.toNat < z.toNat := of_decide_eq_true hbc
          rw [if_neg (by omega : ¬ x.toNat = z.toNat)]
          exact decide_eq_true (by omega)

instance : IsTotal String (fun a b => strLe a b = true) :=
  ⟨fun a b => listLe_total a.data b.data⟩

instance : IsTrans String (fun a b => strLe a b = true) :=
  ⟨fun a b c => listLe_trans a.data b.data c.data⟩

/-- The extracted target list is sorted in Python's string order. -/
theorem load_ips_rows_sorted (fields : List String) :
    (load_ips_rows fields).Sorted (fun a b => strLe a b = true) :=
  List.sorted_insertionSort _ _

/-- The extracted target list has no duplicates. -/
theorem load_ips_rows_nodup (fields : List String) : (load_ips_rows fields).Nodup :=
  ((List.perm_insertionSort _ _).nodup_iff).mpr (List.nodup_dedup _)

/-- Every extracted target passed the validity test. -/
theorem load_ips_rows_mem (fields : List String) (ip : String)
    (h : ip ∈ load_ips_rows fields) : acceptIp ip = true := by
  have h1 := ((List.perm_insertionSort _ _).mem_iff).mp h
  have h2 := List.mem_dedup.mp h1
  exact (List.mem_filter.mp h2).2

/-- An accepted value splits into 4 segments, each an int() value in
0..255. -/
theorem acceptIp_spec (ip : String) (h : acceptIp ip = true) :
    (pySplit '.' ip).length = 4 ∧
      ∀ p ∈ pySplit '.' ip, ∃ n : Int, pyInt p = some n ∧ 0 ≤ n ∧ n ≤ 255 := by
  simp only [acceptIp, Bool.and_eq_true] at h
  obtain ⟨⟨_, _⟩, hlen, hall⟩ := h
  refine ⟨eq_of_beq hlen, ?_⟩
  intro p hp
  have hseg := List.all_eq_true.mp hall p hp
  cases hpi : pyInt p with
  | none => rw [segOk, hpi] at hseg; exact absurd hseg (by simp)
  | some n =>
    rw [segOk, hpi] at hseg
    exact ⟨n, rfl, of_decide_eq_true hseg⟩

/-- The target list is duplicate-free for either load result. -/
theorem load_ips_nodup (input : Option (List String)) :
    (load_ips_from_csv input).Nodup := by
  cases input with
  | none => exact List.nodup_nil
  | some fields => exact load_ips_rows_nodup fields

/-- Claim C3: every terminal dict returned by check_ip_proxycheck
populates exactly one of data (present iff success is true) and error
(present iff success is false) — never both, never neither. -/
theorem C3_payload_error_exclusive (ip : String) (oracle : Nat → AttemptResult)
    (K B : Nat) (o : CheckOutcome)
    (h : (check_ip_proxycheck ip oracle K B).2 = some o) :
    (o.data.isSome = true ↔ o.success = true) ∧
    (o.error.isSome = true ↔ o.success = false) :=
  checkLoop_exclusive ip oracle K B (List.range K) o h

theorem C3_witness :
    (((Option.some "d").isSome = true ↔ true = true) ∧
     ((Option.none : Option String).isSome = true ↔ true = false)) :=
  C3_payload_error_exclusive "1.2.3.4" (fun _ => AttemptResult.httpOk "d") 3 2
    { success := true, ip := "1.2.3.4", data := some "d", error := none } (by decide)

/-- Claim C4: a rate-limited attempt with attempts remaining sleeps
B * 2 to the power (attempt - 1) in 1-based numbering, that is,
retryDelay * 2 ^ a here where a is the 0-based index; any other error
with attempts remaining sleeps the fixed base delay; and a worker
whose first two attempts are rate-limited and whose third succeeds
(K=3, B=2) ends in success after the observed delays 2 then 4. -/
theorem C4_backoff_policy (ip reason msg payload : String) (oracle : Nat → AttemptResult)
    (K B a : Nat) (rest : List Nat) (haK : a < K - 1) :
    (oracle a = AttemptResult.httpError 429 reason →
      (checkLoop ip oracle K B (a :: rest)).1
        = B * 2 ^ a :: (checkLoop ip oracle K B rest).1)
  ∧ (∀ c, ¬ c = 429 → oracle a = AttemptResult.httpError c reason →
      (checkLoop ip oracle K B (a :: rest)).1 = B :: (checkLoop ip oracle K B rest).1)
  ∧ (oracle a = AttemptResult.otherError msg →
      (checkLoop ip oracle K B (a :: rest)).1 = B :: (checkLoop ip oracle K B rest).1)
  ∧ (∀ orc : Nat → AttemptResult,
      orc 0 = AttemptResult.httpError 429 reason →
      orc 1 = AttemptResult.httpError 429 reason →
      orc 2 = AttemptResult.httpOk payload →
      check_ip_proxycheck ip orc 3 2
        = ([2, 4], some { success := true, ip := ip, data := some payload, error := none })) := by
  refine ⟨?_, ?_, ?_, ?_⟩
  · intro h
    rw [checkLoop_retry_http ip oracle K B a rest 429 reason haK h]
    simp
  · intro c hc h
    rw [checkLoop_retry_http ip oracle K B a rest c reason haK h]
    simp [hc]
  · intro h
    rw [checkLoop_retry_other ip oracle K B a rest msg haK h]
  · intro orc h0 h1 h2
    rw [check_ip_proxycheck, show List.range 3 = [0, 1, 2] from rfl]
    rw [checkLoop_retry_http ip orc 3 2 0 [1, 2] 429 reason (by omega) h0]
    rw [checkLoop_retry_http ip orc 3 2 1 [2] 429 reason (by omega) h1]
    rw [checkLoop_ok ip orc 3 2 2 [] payload h2]
    norm_num

theorem C4_witness :
    check_ip_proxycheck "9.9.9.9"
      (fun n => if n = 2 then AttemptResult.httpOk "p" else AttemptResult.httpError 429 "r") 3 2
      = ([2, 4], some { success := true, ip := "9.9.9.9", data := some "p", error := none }) :=
  (C4_backoff_policy "9.9.9.9" "r" "m" "p"
      (fun n => if n = 2 then AttemptResult.httpOk "p" else AttemptResult.httpError 429 "r")
      3 2 0 [] (by decide)).2.2.2
    (fun n => if n = 2 then AttemptResult.httpOk "p" else AttemptResult.httpError 429 "r")
    rfl rfl rfl

/-- Claim C5: a worker whose K attempts are all rate-limited ends in a
failure whose error text names the 429 status, and a rate-limited
attempt with attempts remaining never produces the run's dict — the
loop's value is the value of the remaining attempts. -/
theorem C5_rate_limit_exhaustion (ip reason : String) (oracle : Nat → AttemptResult)
    (K B : Nat) (hK : 1 ≤ K)
    (h429 : ∀ a, a < K → oracle a = AttemptResult.httpError 429 reason) :
    ((check_ip_proxycheck ip oracle K B).2
      = some { success := false, ip := ip, data := none,
               error := some ("HTTP 429: " ++ reason) })
  ∧ (∀ a rest, a < K - 1 →
      (checkLoop ip oracle K B (a :: rest)).2 = (checkLoop ip oracle K B rest).2) := by
  constructor
  · rw [check_ip_proxycheck, List.range_eq_range']
    exact checkLoop_all429 ip oracle K B reason h429 K 0 (by omega) hK
  · intro a rest haK
    rw [checkLoop_retry_http ip oracle K B a rest 429 reason haK (h429 a (by omega))]

theorem C5_witness :
    (check_ip_proxycheck "9.9.9.9" (fun _ => AttemptResult.httpError 429 "Too Many") 3 2).2
      = some { success := false, ip := "9.9.9.9", data := none,
               error := some ("HTTP 429: " ++ "Too Many") } :=
  (C5_rate_limit_exhaustion "9.9.9.9" "Too Many"
    (fun _ => AttemptResult.httpError 429 "Too Many") 3 2 (by decide)
    (fun _ _ => rfl)).1

/-- Claim C6: for max_retries at least 1, check_ip_proxycheck always
returns a dict — the trailing return None is unreachable — and in
main the worker (max_retries=3) always passes the `if result:` guard,
so the collection step always records an outcome. -/
theorem C6_worker_never_none (ip : String) (oracle : Nat → AttemptResult) (K B : Nat)
    (hK : 1 ≤ K) :
    ((check_ip_proxycheck ip oracle K B).2).isSome = true
  ∧ (∀ (oracle2 : String → Nat → AttemptResult) (st : RunState) (t : String),
      ∃ o, mainWorker oracle2 t = some o ∧
        pureStep (mainWorker oracle2) st t = updState st t o) := by
  constructor
  · exact check_isSome ip oracle K B hK
  · intro oracle2 st t
    obtain ⟨o, ho⟩ := Option.isSome_iff_exists.mp
      (check_isSome t (oracle2 t) 3 2 (by omega))
    exact ⟨o, ho, by simp [pureStep, mainWorker, ho]⟩

theorem C6_witness :
    ((check_ip_proxycheck "1.2.3.4" (fun _ => AttemptResult.otherError "timeout") 1 2).2).isSome
      = true :=
  (C6_worker_never_none "1.2.3.4" (fun _ => AttemptResult.otherError "timeout") 1 2
    (by decide)).1

/-- Claim C7: an unreadable input yields the empty target list; an
empty target list makes the program exit with code 1 and write no
output; and a nonempty target list makes the run finish with exit
code 0 and a written output, whatever the per-target outcomes. -/
theorem C7_exit_codes (input : Option (List String)) (sourceFile : String) (apiKeyUsed : Bool)
    (oracle : String → Nat → AttemptResult) (order : List String) (useTqdm : Bool) :
    (load_ips_from_csv none = ([] : List String))
  ∧ (load_ips_from_csv input = [] →
      main_run input sourceFile apiKeyUsed oracle order useTqdm = (1, none))
  ∧ (load_ips_from_csv input ≠ [] →
      (main_run input sourceFile apiKeyUsed oracle order useTqdm).1 = 0 ∧
      ∃ out, (main_run input sourceFile apiKeyUsed oracle order useTqdm).2 = some out) := by
  refine ⟨rfl, ?_, ?_⟩
  · intro h
    simp [main_run, h]
  · intro h
    rw [main_run, if_neg (by simpa using h)]
    exact ⟨rfl, _, rfl⟩

theorem C7_witness :
    (main_run (some []) "in.csv" false (fun _ _ => AttemptResult.httpOk "d") [] true
      = (1, none))
  ∧ ((main_run (some ["1.2.3.4"]) "in.csv" false (fun _ _ => AttemptResult.httpOk "d")
        ["1.2.3.4"] true).1 = 0
     ∧ ∃ out, (main_run (some ["1.2.3.4"]) "in.csv" false (fun _ _ => AttemptResult.httpOk "d")
        ["1.2.3.4"] true).2 = some out) :=
  ⟨(C7_exit_codes (some []) "in.csv" false (fun _ _ => AttemptResult.httpOk "d") [] true).2.1
      (by decide),
   (C7_exit_codes (some ["1.2.3.4"]) "in.csv" false (fun _ _ => AttemptResult.httpOk "d")
      ["1.2.3.4"] true).2.2 (by decide)⟩

/-- Claim C8: the target provider's output has no duplicates, is
sorted ascending in Python's string order, and every element splits on
'.' into exactly four segments, each parsing with int() to a value in
0..255. -/
theorem C8_provider_output (fields : List String) :
    (load_ips_rows fields).Nodup
  ∧ (load_ips_rows fields).Sorted (fun a b => strLe a b = true)
  ∧ ∀ ip ∈ load_ips_rows fields,
      (pySplit '.' ip).length = 4 ∧
        ∀ p ∈ pySplit '.' ip, ∃ n : Int, pyInt p = some n ∧ 0 ≤ n ∧ n ≤ 255 :=
  ⟨load_ips_rows_nodup fields, load_ips_rows_sorted fields,
   fun ip hip => acceptIp_spec ip (load_ips_rows_mem fields ip hip)⟩

theorem C8_witness :
    (load_ips_rows ["8.8.8.8", " \"1.2.3.4\" ", "8.8.8.8", "oops", "1.2.3.256"]).Nodup
  ∧ (load_ips_rows ["8.8.8.8", " \"1.2.3.4\" ", "8.8.8.8", "oops", "1.2.3.256"]).Sorted
      (fun a b => strLe a b = true)
  ∧ (pySplit '.' "1.2.3.4").length = 4
  ∧ ∃ n : Int, pyInt "4" = some n ∧ 0 ≤ n ∧ n ≤ 255 :=
  ⟨(C8_provider_output ["8.8.8.8", " \"1.2.3.4\" ", "8.8.8.8", "oops", "1.2.3.256"]).1,
   (C8_provider_output ["8.8.8.8", " \"1.2.3.4\" ", "8.8.8.8", "oops", "1.2.3.256"]).2.1,
   ((C8_provider_output ["8.8.8.8", " \"1.2.3.4\" ", "8.8.8.8", "oops", "1.2.3.256"]).2.2
      "1.2.3.4" (by decide)).1,
   ((C8_provider_output ["8.8.8.8", " \"1.2.3.4\" ", "8.8.8.8", "oops", "1.2.3.256"]).2.2
      "1.2.3.4" (by decide)).2 "4" (by decide)⟩

/-- Claim C9: the rich (tqdm) and plain displays are interchangeable:
the collection loop reaches the same run state for either, and
main_run returns the same exit code and output structure for either. -/
theorem C9_display_interchangeable (w : String → Option CheckOutcome) (order : List String)
    (input : Option (List String)) (sourceFile : String) (apiKeyUsed : Bool)
    (oracle : String → Nat → AttemptResult) :
    (collectD true w order).1 = (collectD false w order).1
  ∧ main_run input sourceFile apiKeyUsed oracle order true
      = main_run input sourceFile apiKeyUsed oracle order false := by
  constructor
  · rw [collectD, collectD, foldD_fst, foldD_fst]
  · rw [main_run, main_run]
    cases h : (load_ips_from_csv input).isEmpty with
    | true => rfl
    | false => simp only [collectD, foldD_fst]

/-- Claim C10: get_ip is total and returns success = True for every
input — a raised network exception is swallowed and reported as a
success record with ip "logged", so the harvesting flow never records
a failure. -/
theorem C10_harvest_always_success (resp : NetResponse) (check_id : Nat) (msg : String) :
    ((get_ip resp check_id).success = true)
  ∧ (get_ip (NetResponse.exc msg) check_id
      = { success := true, ip := "logged", id := check_id,
          note := some "Response failed but logged" }) := by
  refine ⟨?_, rfl⟩
  cases resp with
  | exc m => rfl
  | ok body =>
    simp only [get_ip]
    cases hf : ((pySplit '\n' (pyStrip body)).map pyStrip).find? validQuad <;> simp [hf]

/-- Claim C1: when every submitted worker completes (the completion
order is a permutation of the provider's targets), the output metadata
satisfies successful + failed = number of stored results, and the
number of stored results equals the number of targets. -/
theorem C1_run_counters (input : Option (List String)) (sourceFile : String)
    (apiKeyUsed : Bool) (oracle : String → Nat → AttemptResult) (order : List String)
    (useTqdm : Bool) (md : RunMetadata) (res : List (String × CheckOutcome))
    (hperm : order.Perm (load_ips_from_csv input))
    (hout : (main_run input sourceFile apiKeyUsed oracle order useTqdm).2
      = some { metadata := md, results := res }) :
    md.successful + md.failed = res.length ∧ res.length = md.total_ips := by
  have hnd : order.Nodup := (hperm.nodup_iff).mpr (load_ips_nodup input)
  have hw : ∀ t, (mainWorker oracle t).isSome = true :=
    fun t => check_isSome t (oracle t) 3 2 (by omega)
  have hspec := collectD_spec useTqdm (mainWorker oracle) hw order hnd
  by_cases hips : (load_ips_from_csv input).isEmpty
  · rw [main_run, if_pos hips] at hout
    exact absurd hout (by simp)
  · rw [main_run, if_neg hips] at hout
    injection Option.some.inj hout with hmd hres
    subst hmd
    subst hres
    dsimp only
    have hlen : (collectD useTqdm (mainWorker oracle) order).1.results.length
        = order.length := by
      conv_rhs => rw [← hspec.1]
      rw [List.length_map]
    refine ⟨?_, ?_⟩
    · rw [hspec.2, hlen]
    · rw [hlen, hperm.length_eq]

theorem C1_witness :
    ({ source_file := "in.csv", total_ips := 2, successful := 2, failed := 0,
       api_key_used := false } : RunMetadata).successful
      + ({ source_file := "in.csv", total_ips := 2, successful := 2, failed := 0,
           api_key_used := false } : RunMetadata).failed
      = ([("8.8.8.8", { success := true, ip := "8.8.8.8", data := some "d", error := none }),
          ("1.2.3.4", { success := true, ip := "1.2.3.4", data := some "d", error := none })] :
            List (String × CheckOutcome)).length
  ∧ ([("8.8.8.8", { success := true, ip := "8.8.8.8", data := some "d", error := none }),
      ("1.2.3.4", { success := true, ip := "1.2.3.4", data := some "d", error := none })] :
        List (String × CheckOutcome)).length
      = ({ source_file := "in.csv", total_ips := 2, successful := 2, failed := 0,
           api_key_used := false } : RunMetadata).total_ips :=
  C1_run_counters (some ["8.8.8.8", "1.2.3.4"]) "in.csv" false
    (fun _ _ => AttemptResult.httpOk "d") ["8.8.8.8", "1.2.3.4"] true
    { source_file := "in.csv", total_ips := 2, successful := 2, failed := 0,
      api_key_used := false }
    [("8.8.8.8", { success := true, ip := "8.8.8.8", data := some "d", error := none }),
     ("1.2.3.4", { success := true, ip := "1.2.3.4", data := some "d", error := none })]
    (by decide) (by decide)

/-- Claim C2: when every submitted worker completes, the run ends with
exactly one stored outcome per provider target: each target's key
occurs exactly once among the result keys, and no other key occurs. -/
theorem C2_exactly_one_outcome (input : Option (List String)) (sourceFile : String)
    (apiKeyUsed : Bool) (oracle : String → Nat → AttemptResult) (order : List String)
    (useTqdm : Bool) (md : RunMetadata) (res : List (String × CheckOutcome))
    (hperm : order.Perm (load_ips_from_csv input))
    (hout : (main_run input sourceFile apiKeyUsed oracle order useTqdm).2
      = some { metadata := md, results := res }) :
    ∀ t : String, (res.map Prod.fst).count t
      = if t ∈ load_ips_from_csv input then 1 else 0 := by
  have hnd : order.Nodup := (hperm.nodup_iff).mpr (load_ips_nodup input)
  have hw : ∀ t, (mainWorker oracle t).isSome = true :=
    fun t => check_isSome t (oracle t) 3 2 (by omega)
  have hspec := collectD_spec useTqdm (mainWorker oracle) hw order hnd
  by_cases hips : (load_ips_from_csv input).isEmpty
  · rw [main_run, if_pos hips] at hout
    exact absurd hout (by simp)
  · rw [main_run, if_neg hips] at hout
    injection Option.some.inj hout with hmd hres
    subst hres
    intro t
    rw [hspec.1, hperm.count_eq]
    by_cases hmem : t ∈ load_ips_from_csv input
    · rw [if_pos hmem]
      exact List.count_eq_one_of_mem (load_ips_nodup input) hmem
    · rw [if_neg hmem]
      exact List.count_eq_zero_of_not_mem hmem

theorem C2_witness :
    ((([("8.8.8.8", { success := true, ip := "8.8.8.8", data := some "d", error := none }),
        ("1.2.3.4", { success := true, ip := "1.2.3.4", data := some "d", error := none })] :
          List (String × CheckOutcome)).map Prod.fst).count "1.2.3.4")
      = if "1.2.3.4" ∈ load_ips_from_csv (some ["8.8.8.8", "1.2.3.4"]) then 1 else 0 :=
  C2_exactly_one_outcome (some ["8.8.8.8", "1.2.3.4"]) "in.csv" false
    (fun _ _ => AttemptResult.httpOk "d") ["8.8.8.8", "1.2.3.4"] true
    { source_file := "in.csv", total_ips := 2, successful := 2, failed := 0,
      api_key_used := false }
    [("8.8.8.8", { success := true, ip := "8.8.8.8", data := some "d", error := none }),
     ("1.2.3.4", { success := true, ip := "1.2.3.4", data := some "d", error := none })]
    (by decide) (by decide) "1.2.3.4"
